import Mathlib

/-!
Verification of the `outdated` core of the osutil utility (src/main.rs).

The embedding is shallow: network transport and JSON/XML decoding are
abstracted into an environment `Env` that maps each query key to an
already-decoded response or a per-request error (`RemoteQueryError` for
transport failures, `DecodeError` for malformed responses), exactly the two
failure kinds the source surfaces via `?`.  The decision logic of
`handle_pkg` and the fan-out of `process_outdated` are translated statement
by statement.  Rust's `unimplemented!()` (reached for a leap version missing
from the hard-coded table) is a panic, not a `Result` error: it is modelled
by the distinguished outcome `panicUnimplemented`, which aborts the whole
batch, mirroring the unwinding of the panic through `buffer_unordered` and
`main`.  The OBS branch POST is a three-stage pipeline in the source: the
send is checked with `?`, the body read is unwrapped (a failure there is a
second uncaught panic, modelled by `panicBodyUnwrap`), and the decode is
checked with `?` again; its oracle therefore answers with one of four
mutually exclusive outcomes (`BranchResponse`), one per stage plus success.
The fan-out itself (`buffer_unordered(4)`) is modelled sequentially
in issue order; in-flight ceiling and completion reordering are scheduling
behaviour outside a sequential embedding.
-/

namespace Osutil

/-- Mirror of struct `ProjectRepo` (one repology status row). -/
structure ProjectRepo where
  repo : String
  subrepo : Option String
  srcname : Option String
  visiblename : String
  version : String
  maintainers : Option (List String)
  categories : Option (List String)
  status : String
  origversion : Option String
  deriving DecidableEq

/-- Mirror of struct `ObsSourceTarget`. -/
structure ObsSourceTarget where
  project : String
  package : String
  deriving DecidableEq

/-- Mirror of struct `ObsSourcePackage` (one row of a dry-run branch listing). -/
structure ObsSourcePackage where
  project : String
  package : String
  target : ObsSourceTarget
  deriving DecidableEq

/-- Mirror of struct `ObsSourceCollection`. -/
structure ObsSourceCollection where
  packages : List ObsSourcePackage
  deriving DecidableEq

/-- The two per-request failure kinds a unit of work can hit: transport
failure (`RemoteQueryError`) or a response that does not decode
(`DecodeError`).  The string is the human-readable context message. -/
inductive UnitError where
  | remoteQueryError (msg : String)
  | decodeError (msg : String)
  deriving DecidableEq

/-- Outcome of the OBS dry-run branch POST, one constructor per stage of
the source's pipeline: the send checked with `?` (`sendError`), the body
read done with `.text().await.unwrap()` whose failure panics (`textPanic`),
the `from_reader` decode checked with `?` (`decodeError`), and success. -/
inductive BranchResponse where
  | ok (collection : ObsSourceCollection)
  | sendError (msg : String)
  | textPanic
  | decodeError (msg : String)
  deriving DecidableEq

/-- The environment a run executes against: the decoded response (or error)
of the repology GET keyed by the queried project name, and the staged
outcome of the OBS dry-run branch POST keyed by the package name. -/
structure Env where
  repology : String → Except UnitError (List ProjectRepo)
  obsBranch : String → BranchResponse

/-- Outcome of one `handle_pkg` unit: lines printed to stdout on success, a
caught error, or one of the two uncaught panics: `unimplemented!()` at the
version table, or the `unwrap()` on the branch POST's body read. -/
inductive HandleOutcome where
  | ok (lines : List String)
  | error (e : UnitError)
  | panicUnimplemented
  | panicBodyUnwrap
  deriving DecidableEq

/-- Whether a unit outcome is one of the two uncaught panics. -/
def isPanic : HandleOutcome → Bool
  | HandleOutcome.panicUnimplemented => true
  | HandleOutcome.panicBodyUnwrap => true
  | HandleOutcome.ok _ => false
  | HandleOutcome.error _ => false

/-- Embeds `pkg.strip_prefix("python-").unwrap_or(&pkg)`: drop the leading
7-character `python-` marker when present, otherwise keep the name. -/
def stripPython (pkg : String) : String :=
  if pkg.data.take 7 = "python-".data then String.mk (pkg.data.drop 7) else pkg

/-- Embeds `leap_ver.replace('.', "_")`: every dot becomes an underscore
(single-character pattern and replacement, hence a character map). -/
def replaceDots (s : String) : String :=
  String.mk (s.data.map (fun c => if c = '.' then '_' else c))

/-- Embeds the `newest_version` binding of `handle_pkg`: the version of the
first entry whose status is `"newest"`, or the sentinel `"?"`. -/
def newestVersion (repos : List ProjectRepo) : String :=
  ((repos.find? (fun repo => repo.status == "newest")).map
    (fun repo => repo.version)).getD "?"

/-- Embeds the `match leap_ver.as_str()` table: only `"15.4"` is mapped; any
other version falls into `unimplemented!()`, modelled as `none`. -/
def leapData (leapVer : String) : Option (String × List String) :=
  match leapVer with
  | "15.4" => some ("SLE-15-SP4", ["SLE-15-SP3:Update", "SLE-15-SP2:Update"])
  | _ => none

/-- Embeds the `from_latest_sle` binding: some branch-listing row's owning
project is `SUSE:` followed by the latest line. -/
def fromLatestSle (collection : ObsSourceCollection) (latest : String) : Bool :=
  (collection.packages.find? (fun obsPackage =>
    obsPackage.project == "SUSE:" ++ latest)).isSome

/-- Embeds the `from_latest_backports` binding: some branch-listing row's
owning project is `openSUSE:Backports:` followed by the latest line. -/
def fromLatestBackports (collection : ObsSourceCollection) (latest : String) : Bool :=
  (collection.packages.find? (fun obsPackage =>
    obsPackage.project == "openSUSE:Backports:" ++ latest)).isSome

/-- Embeds the `from_older_backports` binding: some branch-listing row's
owning project is `openSUSE:Backports:` followed by one of the older lines. -/
def fromOlderBackports (collection : ObsSourceCollection) (older : List String) : Bool :=
  (collection.packages.find? (fun obsPackage =>
    (older.find? (fun ver =>
      obsPackage.project == "openSUSE:Backports:" ++ ver)).isSome)).isSome

/-- Embeds the leap-mode branch of `handle_pkg`, entered once the tumbleweed
entry was found and a leap version was given: locate the synthesized leap
repo entry, compare with the newest version, fetch the dry-run branch
listing, consult the hard-coded table and apply the eligibility gate. -/
def decideLeap (env : Env) (pkg : String) (repos : List ProjectRepo)
    (leapVer : String) : HandleOutcome :=
  let leapRepo := repos.find? (fun projectRepo =>
    projectRepo.repo == "opensuse_leap_" ++ replaceDots leapVer)
  match leapRepo with
  | some leapRepo =>
    if leapRepo.version != newestVersion repos then
      match env.obsBranch pkg with
      | BranchResponse.sendError m =>
        HandleOutcome.error (UnitError.remoteQueryError m)
      | BranchResponse.textPanic => HandleOutcome.panicBodyUnwrap
      | BranchResponse.decodeError m =>
        HandleOutcome.error (UnitError.decodeError m)
      | BranchResponse.ok collection =>
        match leapData leapVer with
        | none => HandleOutcome.panicUnimplemented
        | some data =>
          if fromLatestBackports collection data.1
              || (!fromLatestSle collection data.1
                  && fromOlderBackports collection data.2) then
            HandleOutcome.ok [pkg ++ ": " ++ leapRepo.version ++ " -> "
              ++ newestVersion repos]
          else
            HandleOutcome.ok []
    else
      HandleOutcome.ok []
  | none => HandleOutcome.ok []

/-- Embeds the decision part of `handle_pkg` after the repology rows were
decoded.  Note the not-found branch is the `else` of the outer
`if let Some(tw_repo)` in the source and is therefore shared by both modes. -/
def decidePkg (env : Env) (pkg : String) (showPackagesNotFound : Bool)
    (leapVer : Option String) (repos : List ProjectRepo) : HandleOutcome :=
  let twRepo := repos.find? (fun projectRepo =>
    projectRepo.repo == "opensuse_tumbleweed")
  match twRepo with
  | some twRepo =>
    match leapVer with
    | some leapVer => decideLeap env pkg repos leapVer
    | none =>
      if twRepo.status == "outdated" then
        HandleOutcome.ok [pkg ++ ": " ++ twRepo.version ++ " -> "
          ++ newestVersion repos]
      else
        HandleOutcome.ok []
  | none =>
    if showPackagesNotFound then
      HandleOutcome.ok ["Could not find package " ++ pkg]
    else
      HandleOutcome.ok []

/-- Embeds `handle_pkg`: strip the ecosystem marker for the repology query,
decode, then decide.  All printed lines carry the original `pkg`. -/
def handlePkg (env : Env) (pkg : String) (showPackagesNotFound : Bool)
    (leapVer : Option String) : HandleOutcome :=
  match env.repology (stripPython pkg) with
  | Except.error e => HandleOutcome.error e
  | Except.ok repos => decidePkg env pkg showPackagesNotFound leapVer repos

/-- Message printed by `eprintln!("{}", err)` for a caught unit error. -/
def errMsg : UnitError → String
  | UnitError.remoteQueryError m => m
  | UnitError.decodeError m => m

/-- Outcome of one whole `process_outdated` run: the stdout report lines and
the stderr error lines on completion, a process abort when a unit panicked,
or the propagated error of the initial maintained-package listing. -/
inductive BatchOutcome where
  | ok (stdout : List String) (stderr : List String)
  | panicked (stdout : List String) (stderr : List String)
  | listError (e : UnitError)
  deriving DecidableEq

/-- Embeds the `for_each` loop over `buffer_unordered`: each unit's `Ok`
lines go to stdout, each caught `Err` is printed to stderr, and either
panic unwinds out of the whole batch. -/
def runUnits (env : Env) (showPackagesNotFound : Bool) (leapVer : Option String) :
    List String → List String → List String → BatchOutcome
  | [], stdout, stderr => BatchOutcome.ok stdout stderr
  | pkg :: rest, stdout, stderr =>
    match handlePkg env pkg showPackagesNotFound leapVer with
    | HandleOutcome.ok lines =>
      runUnits env showPackagesNotFound leapVer rest (stdout ++ lines) stderr
    | HandleOutcome.error e =>
      runUnits env showPackagesNotFound leapVer rest stdout (stderr ++ [errMsg e])
    | HandleOutcome.panicUnimplemented => BatchOutcome.panicked stdout stderr
    | HandleOutcome.panicBodyUnwrap => BatchOutcome.panicked stdout stderr

/-- Embeds `process_outdated`: propagate a failure of the initial
`get_maintained_pkgs` call via `?`; otherwise drive every package through
`handle_pkg`, catching unit errors locally, and return success. -/
def processOutdated (env : Env) (maintained : Except UnitError (List String))
    (showPackagesNotFound : Bool) (leapVer : Option String) : BatchOutcome :=
  match maintained with
  | Except.error e => BatchOutcome.listError e
  | Except.ok pkgs => runUnits env showPackagesNotFound leapVer pkgs [] []

/-- Stdout contribution of one unit outcome. -/
def unitLines : HandleOutcome → List String
  | HandleOutcome.ok lines => lines
  | _ => []

/-- Stderr contribution of one unit outcome. -/
def unitErrs : HandleOutcome → List String
  | HandleOutcome.error e => [errMsg e]
  | _ => []

/-- Status row with only the decision-relevant fields populated. -/
def mkRepo (repo version status : String) : ProjectRepo :=
  { repo := repo, subrepo := none, srcname := none, visiblename := repo,
    version := version, maintainers := none, categories := none,
    status := status, origversion := none }

/-- Branch-listing row owned by the given project. -/
def mkBranch (project : String) : ObsSourcePackage :=
  { project := project, package := "pkg",
    target := { project := "home:user:branches:" ++ project, package := "pkg" } }

/-- Rows of the spec's end-to-end example 1. -/
def reposEx1 : List ProjectRepo :=
  [mkRepo "opensuse_tumbleweed" "1.0" "outdated",
   mkRepo "other" "1.2" "newest"]

/-- Environment of the spec's end-to-end examples 1 and 2. -/
def envEx1 : Env :=
  { repology := fun name =>
      if name = "foo" then Except.ok reposEx1 else Except.ok []
    obsBranch := fun _ => BranchResponse.ok { packages := [] } }

/-- Rows of the spec's end-to-end example 3. -/
def reposEx3 : List ProjectRepo :=
  [mkRepo "opensuse_tumbleweed" "2.1" "newest",
   mkRepo "opensuse_leap_15_4" "2.0" "outdated"]

/-- Branch listing of the spec's end-to-end example 3. -/
def collEx3 : ObsSourceCollection :=
  { packages := [mkBranch "openSUSE:Backports:SLE-15-SP4"] }

/-- Environment of the spec's end-to-end example 3. -/
def envEx3 : Env :=
  { repology := fun name =>
      if name = "baz" then Except.ok reposEx3 else Except.ok []
    obsBranch := fun name =>
      if name = "baz" then BranchResponse.ok collEx3
      else BranchResponse.ok { packages := [] } }

/-- Environment with one package reaching the eligibility check of an
unmapped leap version and a sibling package behind it in the batch. -/
def envC3 : Env :=
  { repology := fun name =>
      if name = "aaa" then
        Except.ok [mkRepo "opensuse_tumbleweed" "2.0" "newest",
                   mkRepo "opensuse_leap_15_5" "1.0" "outdated"]
      else if name = "bbb" then
        Except.ok [mkRepo "opensuse_tumbleweed" "1.0" "outdated",
                   mkRepo "other" "2.0" "newest"]
      else Except.ok []
    obsBranch := fun _ => BranchResponse.ok { packages := [] } }

/-- Environment where one unit succeeds and one unit fails to decode. -/
def envC5 : Env :=
  { repology := fun name =>
      if name = "good" then
        Except.ok [mkRepo "opensuse_tumbleweed" "1.0" "outdated",
                   mkRepo "other" "2.0" "newest"]
      else if name = "bad" then
        Except.error (UnitError.decodeError
          "unable to deserialize json for package bad")
      else Except.ok []
    obsBranch := fun _ => BranchResponse.ok { packages := [] } }

/-- Environment where one unit's branch POST sends fine but the body read
fails (the unwrapped panic path), with a sibling unit behind it whose
repology call fails with a catchable decode error. -/
def envC5x : Env :=
  { repology := fun name =>
      if name = "aaa" then
        Except.ok [mkRepo "opensuse_tumbleweed" "2.0" "newest",
                   mkRepo "opensuse_leap_15_4" "1.0" "outdated"]
      else if name = "bad" then
        Except.error (UnitError.decodeError
          "unable to deserialize json for package bad")
      else Except.ok []
    obsBranch := fun name =>
      if name = "aaa" then BranchResponse.textPanic
      else BranchResponse.ok { packages := [] } }

/-- Rows with a tumbleweed entry but no leap entry. -/
def reposC6a : List ProjectRepo :=
  [mkRepo "opensuse_tumbleweed" "1.0" "outdated"]

/-- Environment for the absent-target-entry case. -/
def envC6a : Env :=
  { repology := fun name =>
      if name = "p" then Except.ok reposC6a else Except.ok []
    obsBranch := fun _ => BranchResponse.ok { packages := [] } }

/-- Rows whose leap entry already carries the newest version. -/
def reposC6b : List ProjectRepo :=
  [mkRepo "opensuse_tumbleweed" "2.1" "newest",
   mkRepo "opensuse_leap_15_4" "2.1" "outdated"]

/-- Environment for the already-current case. -/
def envC6b : Env :=
  { repology := fun name =>
      if name = "p" then Except.ok reposC6b else Except.ok []
    obsBranch := fun _ => BranchResponse.ok { packages := [] } }

/-- Environment answering the stripped name `requests`. -/
def envC7a : Env :=
  { repology := fun name =>
      if name = "requests" then
        Except.ok [mkRepo "opensuse_tumbleweed" "1.0" "outdated",
                   mkRepo "other" "2.0" "newest"]
      else Except.ok []
    obsBranch := fun _ => BranchResponse.ok { packages := [] } }

/-- Environment agreeing with `envC7a` at the stripped name `requests` but
differing everywhere else, in particular at the unstripped name. -/
def envC7b : Env :=
  { repology := fun name =>
      if name = "requests" then
        Except.ok [mkRepo "opensuse_tumbleweed" "1.0" "outdated",
                   mkRepo "other" "2.0" "newest"]
      else Except.error (UnitError.remoteQueryError "host unreachable")
    obsBranch := fun _ => BranchResponse.ok { packages := [] } }

/-- Rows whose tumbleweed entry is the first (and only) `newest` entry. -/
def reposC9A : List ProjectRepo :=
  [mkRepo "opensuse_tumbleweed" "2.0" "newest",
   mkRepo "opensuse_leap_15_4" "2.0" "outdated"]

/-- Same rows as `reposC9A` except for the tumbleweed entry's status. -/
def reposC9B : List ProjectRepo :=
  [mkRepo "opensuse_tumbleweed" "2.0" "outdated",
   mkRepo "opensuse_leap_15_4" "2.0" "outdated"]

/-- Environment serving `reposC9A` plus a backports branch row. -/
def envC9A : Env :=
  { repology := fun name =>
      if name = "p" then Except.ok reposC9A else Except.ok []
    obsBranch := fun name =>
      if name = "p" then BranchResponse.ok collEx3
      else BranchResponse.ok { packages := [] } }

/-- Environment serving `reposC9B` plus a backports branch row. -/
def envC9B : Env :=
  { repology := fun name =>
      if name = "p" then Except.ok reposC9B else Except.ok []
    obsBranch := fun name =>
      if name = "p" then BranchResponse.ok collEx3
      else BranchResponse.ok { packages := [] } }

/-- Dropping the marker from a marked name recovers the unmarked name. -/
theorem stripPython_append (rest : String) :
    stripPython ("python-" ++ rest) = rest := by
  unfold stripPython
  rw [String.data_append]
  have hlen : "python-".data.length = 7 := rfl
  rw [← hlen, List.take_left, List.drop_left, if_pos rfl]

/-- The leap decision consults the environment only through the branch
listing of the handled package. -/
theorem decideLeap_env_congr (env env' : Env) (pkg : String)
    (hbr : env'.obsBranch pkg = env.obsBranch pkg) :
    ∀ (repos : List ProjectRepo) (lv : String),
      decideLeap env' pkg repos lv = decideLeap env pkg repos lv := by
  intro repos lv
  unfold decideLeap
  rw [hbr]

/-- Every line a unit prints is either an outdated report or the not-found
notice, and both carry the original package name. -/
theorem handlePkg_lines_shape (env : Env) (pkg : String) (snf : Bool)
    (lv : Option String) (lines : List String)
    (h : handlePkg env pkg snf lv = HandleOutcome.ok lines) :
    ∀ l ∈ lines,
      (∃ cur newest, l = pkg ++ ": " ++ cur ++ " -> " ++ newest)
      ∨ l = "Could not find package " ++ pkg := by
  intro l hl
  simp only [handlePkg, decidePkg, decideLeap] at h
  repeat' split at h
  all_goals cases h
  all_goals simp only [List.mem_singleton, List.not_mem_nil] at hl
  all_goals first
    | exact hl.elim
    | (subst hl; exact Or.inl ⟨_, _, rfl⟩)
    | (subst hl; exact Or.inr rfl)

/-- When no unit hits either uncaught panic, the whole batch completes:
every unit's stdout lines and every caught error message are collected in
issue order. -/
theorem runUnits_no_panic (env : Env) (snf : Bool) (lv : Option String)
    (pkgs : List String) :
    ∀ (stdout stderr : List String),
    (∀ pkg ∈ pkgs, isPanic (handlePkg env pkg snf lv) = false) →
    runUnits env snf lv pkgs stdout stderr =
      BatchOutcome.ok
        (stdout ++ pkgs.flatMap (fun p => unitLines (handlePkg env p snf lv)))
        (stderr ++ pkgs.flatMap (fun p => unitErrs (handlePkg env p snf lv))) := by
  induction pkgs with
  | nil => intro stdout stderr _; simp [runUnits]
  | cons pkg rest ih =>
    intro stdout stderr h
    have hpkg := h pkg (List.mem_cons_self pkg rest)
    have hrest : ∀ p ∈ rest, isPanic (handlePkg env p snf lv) = false :=
      fun p hp => h p (List.mem_cons_of_mem _ hp)
    cases hh : handlePkg env pkg snf lv with
    | ok lines =>
      simp only [runUnits, hh]
      rw [ih (stdout ++ lines) stderr hrest]
      simp [unitLines, unitErrs, hh, List.flatMap_cons, List.append_assoc]
    | error e =>
      simp only [runUnits, hh]
      rw [ih stdout (stderr ++ [errMsg e]) hrest]
      simp [unitLines, unitErrs, hh, List.flatMap_cons, List.append_assoc]
    | panicUnimplemented => rw [hh] at hpkg; simp [isPanic] at hpkg
    | panicBodyUnwrap => rw [hh] at hpkg; simp [isPanic] at hpkg

/-- C1: in leap mode, for a package whose rows contain the tumbleweed entry
and the synthesized leap entry with a version differing from the newest
version, and whose branch listing decodes, a report line is emitted iff the
listing has a row under the latest line's backports namespace, or (no row
under the latest line's SUSE namespace and a row under some older line's
backports namespace); otherwise nothing is emitted. -/
theorem C1_leap_gate_iff (env : Env) (pkg : String) (snf : Bool) (lv : String)
    (repos : List ProjectRepo) (collection : ObsSourceCollection)
    (data : String × List String) (tw lr : ProjectRepo)
    (hrep : env.repology (stripPython pkg) = Except.ok repos)
    (htw : repos.find? (fun projectRepo =>
      projectRepo.repo == "opensuse_tumbleweed") = some tw)
    (hlr : repos.find? (fun projectRepo =>
      projectRepo.repo == "opensuse_leap_" ++ replaceDots lv) = some lr)
    (hneq : lr.version ≠ newestVersion repos)
    (hbr : env.obsBranch pkg = BranchResponse.ok collection)
    (hdata : leapData lv = some data) :
    handlePkg env pkg snf (some lv) =
      (if fromLatestBackports collection data.1
          || (!fromLatestSle collection data.1
              && fromOlderBackports collection data.2)
       then HandleOutcome.ok [pkg ++ ": " ++ lr.version ++ " -> "
              ++ newestVersion repos]
       else HandleOutcome.ok []) := by
  simp only [handlePkg, hrep, decidePkg, htw, decideLeap, hlr, hbr, hdata,
    bne_iff_ne, ne_eq, hneq, not_false_eq_true, if_true]

/-- Witness for C1 at the spec's end-to-end example 3. -/
theorem C1_witness :
    envEx3.repology (stripPython "baz") = Except.ok reposEx3
    ∧ reposEx3.find? (fun projectRepo =>
        projectRepo.repo == "opensuse_tumbleweed")
        = some (mkRepo "opensuse_tumbleweed" "2.1" "newest")
    ∧ reposEx3.find? (fun projectRepo =>
        projectRepo.repo == "opensuse_leap_" ++ replaceDots "15.4")
        = some (mkRepo "opensuse_leap_15_4" "2.0" "outdated")
    ∧ (mkRepo "opensuse_leap_15_4" "2.0" "outdated").version ≠ newestVersion reposEx3
    ∧ envEx3.obsBranch "baz" = BranchResponse.ok collEx3
    ∧ leapData "15.4" = some ("SLE-15-SP4", ["SLE-15-SP3:Update", "SLE-15-SP2:Update"])
    ∧ handlePkg envEx3 "baz" false (some "15.4") =
        (if fromLatestBackports collEx3 "SLE-15-SP4"
            || (!fromLatestSle collEx3 "SLE-15-SP4"
                && fromOlderBackports collEx3 ["SLE-15-SP3:Update", "SLE-15-SP2:Update"])
         then HandleOutcome.ok ["baz" ++ ": " ++ "2.0" ++ " -> " ++ newestVersion reposEx3]
         else HandleOutcome.ok []) :=
  ⟨rfl, by decide, by decide, by decide, rfl, rfl,
   C1_leap_gate_iff envEx3 "baz" false "15.4" reposEx3 collEx3
     ("SLE-15-SP4", ["SLE-15-SP3:Update", "SLE-15-SP2:Update"])
     (mkRepo "opensuse_tumbleweed" "2.1" "newest")
     (mkRepo "opensuse_leap_15_4" "2.0" "outdated")
     rfl (by decide) (by decide) (by decide) rfl rfl⟩

/-- C2: in plain mode, a package whose tumbleweed entry has status
`outdated` gets exactly one line, current version from that entry, target
version from the first `newest`-status entry, sentinel `?` when none. -/
theorem C2_plain_outdated_line (env : Env) (pkg : String) (snf : Bool)
    (repos : List ProjectRepo) (tw : ProjectRepo)
    (hrep : env.repology (stripPython pkg) = Except.ok repos)
    (htw : repos.find? (fun projectRepo =>
      projectRepo.repo == "opensuse_tumbleweed") = some tw)
    (hst : tw.status = "outdated") :
    handlePkg env pkg snf none =
      HandleOutcome.ok [pkg ++ ": " ++ tw.version ++ " -> "
        ++ (((repos.find? (fun repo => repo.status == "newest")).map
              (fun repo => repo.version)).getD "?")] := by
  simp only [handlePkg, hrep, decidePkg, htw, hst, newestVersion,
    beq_self_eq_true, if_true]

/-- Witness for C2 at the spec's end-to-end example 1. -/
theorem C2_witness :
    envEx1.repology (stripPython "foo") = Except.ok reposEx1
    ∧ reposEx1.find? (fun projectRepo =>
        projectRepo.repo == "opensuse_tumbleweed")
        = some (mkRepo "opensuse_tumbleweed" "1.0" "outdated")
    ∧ (mkRepo "opensuse_tumbleweed" "1.0" "outdated").status = "outdated"
    ∧ handlePkg envEx1 "foo" false none =
        HandleOutcome.ok ["foo" ++ ": " ++ "1.0" ++ " -> "
          ++ (((reposEx1.find? (fun repo => repo.status == "newest")).map
                (fun repo => repo.version)).getD "?")] :=
  ⟨rfl, by decide, rfl,
   C2_plain_outdated_line envEx1 "foo" false reposEx1
     (mkRepo "opensuse_tumbleweed" "1.0" "outdated") rfl (by decide) rfl⟩

/-- C3: a leap version absent from the table does not produce a caught
`UnmappedDistributionVersion` unit error; the source hits `unimplemented!()`
(a panic), the batch aborts and pending sibling units never run: at the
failing input the unit outcome is the panic and the batch outcome is
`panicked`, not `ok`. -/
theorem C3_unmapped_version_panics :
    leapData "15.5" = none
    ∧ handlePkg envC3 "aaa" false (some "15.5") = HandleOutcome.panicUnimplemented
    ∧ processOutdated envC3 (Except.ok ["aaa", "bbb"]) false (some "15.5")
        = BatchOutcome.panicked [] [] := by
  decide

/-- Counterexample for C4: in leap mode with the show-not-found flag set, a
package with no tumbleweed entry does get the not-found notice, because the
notice branch is the shared `else` of the outer `if let Some(tw_repo)`. -/
theorem C4_counterexample :
    handlePkg envEx3 "bar" true (some "15.4")
      = HandleOutcome.ok ["Could not find package bar"] := by
  decide

/-- C4 amended: in leap mode, a package with no tumbleweed entry behaves
exactly like plain mode's not-found branch: the notice is emitted iff the
show-not-found flag is set, otherwise nothing, never an error. -/
theorem C4_amended_leap_not_found (env : Env) (pkg : String) (snf : Bool)
    (lv : String) (repos : List ProjectRepo)
    (hrep : env.repology (stripPython pkg) = Except.ok repos)
    (htw : repos.find? (fun projectRepo =>
      projectRepo.repo == "opensuse_tumbleweed") = none) :
    handlePkg env pkg snf (some lv) =
      HandleOutcome.ok (if snf then ["Could not find package " ++ pkg] else []) := by
  simp only [handlePkg, hrep, decidePkg, htw]
  by_cases h : snf <;> simp [h]

/-- Witness for the amended C4. -/
theorem C4_witness :
    envEx3.repology (stripPython "bar") = Except.ok []
    ∧ ([] : List ProjectRepo).find? (fun projectRepo =>
        projectRepo.repo == "opensuse_tumbleweed") = none
    ∧ handlePkg envEx3 "bar" true (some "15.4") =
        HandleOutcome.ok (if true then ["Could not find package " ++ "bar"] else []) :=
  ⟨rfl, rfl, C4_amended_leap_not_found envEx3 "bar" true "15.4" [] rfl rfl⟩

/-- Counterexample for C5: a network failure while reading the branch
POST's response body is not caught at the unit boundary: the unwrap panics,
the batch aborts before the pending sibling unit (whose caught decode error
would otherwise appear on stderr) ever runs, and the outcome is `panicked`,
not a success with the error logged. -/
theorem C5_counterexample :
    envC5x.obsBranch "aaa" = BranchResponse.textPanic
    ∧ handlePkg envC5x "aaa" false (some "15.4") = HandleOutcome.panicBodyUnwrap
    ∧ processOutdated envC5x (Except.ok ["aaa", "bad"]) false (some "15.4")
        = BatchOutcome.panicked [] [] := by
  decide

/-- C5 amended: failures surfaced as `Result` values — repology network or
decode errors, branch-POST send errors and branch-listing decode errors —
are caught locally at the unit boundary, written to the stderr stream, and
cancel neither sibling units nor the batch; for runs in which no unit hits
an uncaught panic (body-read unwrap or unmapped-version table), the
coordinator fails exactly when the initial maintained-package listing
fails. -/
theorem C5_amended_partial_failure (env : Env) (pkgs : List String) (snf : Bool)
    (lv : Option String) (e : UnitError)
    (h : ∀ pkg ∈ pkgs, isPanic (handlePkg env pkg snf lv) = false) :
    processOutdated env (Except.ok pkgs) snf lv =
      BatchOutcome.ok
        (pkgs.flatMap (fun p => unitLines (handlePkg env p snf lv)))
        (pkgs.flatMap (fun p => unitErrs (handlePkg env p snf lv)))
    ∧ processOutdated env (Except.error e) snf lv = BatchOutcome.listError e := by
  constructor
  · have := runUnits_no_panic env snf lv pkgs [] [] h
    simpa [processOutdated] using this
  · rfl

/-- Witness for the amended C5: one succeeding and one failing unit. -/
theorem C5_witness :
    (∀ pkg ∈ ["good", "bad"], isPanic (handlePkg envC5 pkg false none) = false)
    ∧ processOutdated envC5 (Except.ok ["good", "bad"]) false none =
        BatchOutcome.ok
          (["good", "bad"].flatMap (fun p => unitLines (handlePkg envC5 p false none)))
          (["good", "bad"].flatMap (fun p => unitErrs (handlePkg envC5 p false none)))
    ∧ processOutdated envC5
        (Except.error (UnitError.remoteQueryError "unable to get maintained projects"))
        false none
        = BatchOutcome.listError
            (UnitError.remoteQueryError "unable to get maintained projects") :=
  ⟨by decide,
   (C5_amended_partial_failure envC5 ["good", "bad"] false none
     (UnitError.remoteQueryError "unable to get maintained projects") (by decide)).1,
   (C5_amended_partial_failure envC5 ["good", "bad"] false none
     (UnitError.remoteQueryError "unable to get maintained projects") (by decide)).2⟩

/-- C6: in leap mode the target entry is looked up under the identifier
`opensuse_leap_` followed by the version with dots replaced by underscores;
with the tumbleweed entry present, nothing is emitted when that entry is
absent, and nothing is emitted when its version equals the newest version. -/
theorem C6_target_entry_gate (env : Env) (pkg : String) (snf : Bool) (lv : String)
    (repos : List ProjectRepo) (tw : ProjectRepo)
    (hrep : env.repology (stripPython pkg) = Except.ok repos)
    (htw : repos.find? (fun projectRepo =>
      projectRepo.repo == "opensuse_tumbleweed") = some tw) :
    (repos.find? (fun projectRepo =>
        projectRepo.repo == "opensuse_leap_" ++ replaceDots lv) = none →
      handlePkg env pkg snf (some lv) = HandleOutcome.ok [])
    ∧ (∀ lr, repos.find? (fun projectRepo =>
        projectRepo.repo == "opensuse_leap_" ++ replaceDots lv) = some lr →
        lr.version = newestVersion repos →
        handlePkg env pkg snf (some lv) = HandleOutcome.ok []) := by
  constructor
  · intro hnone
    simp only [handlePkg, hrep, decidePkg, htw, decideLeap, hnone]
  · intro lr hlr heq
    simp only [handlePkg, hrep, decidePkg, htw, decideLeap, hlr, heq,
      bne_self_eq_false, Bool.false_eq_true, if_false]

/-- Witness for C6: an absent target entry and an already-current one. -/
theorem C6_witness :
    (envC6a.repology (stripPython "p") = Except.ok reposC6a
      ∧ reposC6a.find? (fun projectRepo =>
          projectRepo.repo == "opensuse_tumbleweed")
          = some (mkRepo "opensuse_tumbleweed" "1.0" "outdated")
      ∧ reposC6a.find? (fun projectRepo =>
          projectRepo.repo == "opensuse_leap_" ++ replaceDots "15.4") = none
      ∧ handlePkg envC6a "p" false (some "15.4") = HandleOutcome.ok [])
    ∧ (envC6b.repology (stripPython "p") = Except.ok reposC6b
      ∧ reposC6b.find? (fun projectRepo =>
          projectRepo.repo == "opensuse_tumbleweed")
          = some (mkRepo "opensuse_tumbleweed" "2.1" "newest")
      ∧ reposC6b.find? (fun projectRepo =>
          projectRepo.repo == "opensuse_leap_" ++ replaceDots "15.4")
          = some (mkRepo "opensuse_leap_15_4" "2.1" "outdated")
      ∧ (mkRepo "opensuse_leap_15_4" "2.1" "outdated").version = newestVersion reposC6b
      ∧ handlePkg envC6b "p" false (some "15.4") = HandleOutcome.ok []) :=
  ⟨⟨rfl, by decide, by decide,
    (C6_target_entry_gate envC6a "p" false "15.4" reposC6a
      (mkRepo "opensuse_tumbleweed" "1.0" "outdated") rfl (by decide)).1 (by decide)⟩,
   ⟨rfl, by decide, by decide, by decide,
    (C6_target_entry_gate envC6b "p" false "15.4" reposC6b
      (mkRepo "opensuse_tumbleweed" "2.1" "newest") rfl (by decide)).2
      (mkRepo "opensuse_leap_15_4" "2.1" "outdated") (by decide) (by decide)⟩⟩

/-- C7: a name with the `python-` marker is queried upstream under the
stripped name (the outcome depends on the repology oracle only at the
stripped name), while every printed line carries the original name. -/
theorem C7_name_normalization (env env' : Env) (rest : String) (snf : Bool)
    (lv : Option String)
    (hrep : env'.repology rest = env.repology rest)
    (hbr : env'.obsBranch ("python-" ++ rest) = env.obsBranch ("python-" ++ rest)) :
    stripPython ("python-" ++ rest) = rest
    ∧ handlePkg env' ("python-" ++ rest) snf lv
        = handlePkg env ("python-" ++ rest) snf lv
    ∧ ∀ lines, handlePkg env ("python-" ++ rest) snf lv = HandleOutcome.ok lines →
        ∀ l ∈ lines,
          (∃ cur newest, l = ("python-" ++ rest) ++ ": " ++ cur ++ " -> " ++ newest)
          ∨ l = "Could not find package " ++ ("python-" ++ rest) := by
  refine ⟨stripPython_append rest, ?_, ?_⟩
  · unfold handlePkg
    rw [stripPython_append, hrep]
    cases env.repology rest with
    | error e => rfl
    | ok repos =>
      simp only [decidePkg, decideLeap_env_congr env env' ("python-" ++ rest) hbr]
  · intro lines h
    exact handlePkg_lines_shape env ("python-" ++ rest) snf lv lines h

/-- Witness for C7: two environments agreeing only at the stripped name. -/
theorem C7_witness :
    envC7b.repology "requests" = envC7a.repology "requests"
    ∧ envC7b.obsBranch ("python-" ++ "requests")
        = envC7a.obsBranch ("python-" ++ "requests")
    ∧ stripPython ("python-" ++ "requests") = "requests"
    ∧ handlePkg envC7b ("python-" ++ "requests") true none
        = handlePkg envC7a ("python-" ++ "requests") true none :=
  ⟨rfl, rfl,
   (C7_name_normalization envC7a envC7b "requests" true none rfl rfl).1,
   (C7_name_normalization envC7a envC7b "requests" true none rfl rfl).2.1⟩

/-- C8: in plain mode, a package with no tumbleweed entry gets the
not-found notice iff the show-not-found flag is set, else nothing; the
outcome is a success either way, never an error. -/
theorem C8_plain_not_found (env : Env) (pkg : String) (snf : Bool)
    (repos : List ProjectRepo)
    (hrep : env.repology (stripPython pkg) = Except.ok repos)
    (htw : repos.find? (fun projectRepo =>
      projectRepo.repo == "opensuse_tumbleweed") = none) :
    handlePkg env pkg snf none =
      HandleOutcome.ok (if snf then ["Could not find package " ++ pkg] else []) := by
  simp only [handlePkg, hrep, decidePkg, htw]
  by_cases h : snf <;> simp [h]

/-- Witness for C8 at the spec's end-to-end example 2. -/
theorem C8_witness :
    envEx1.repology (stripPython "bar") = Except.ok []
    ∧ ([] : List ProjectRepo).find? (fun projectRepo =>
        projectRepo.repo == "opensuse_tumbleweed") = none
    ∧ handlePkg envEx1 "bar" true none =
        HandleOutcome.ok (if true then ["Could not find package " ++ "bar"] else []) :=
  ⟨rfl, rfl, C8_plain_not_found envEx1 "bar" true [] rfl rfl⟩

/-- Counterexample for C9: two inputs identical except for the tumbleweed
entry's status field (same repo identifiers, same versions, same other
rows, same branch listing) produce different leap-mode outcomes, so the
primary entry's fields are consulted: the entry feeds the newest-version
scan when its status is `newest`. -/
theorem C9_counterexample :
    reposC9A.map (fun projectRepo => projectRepo.repo)
      = reposC9B.map (fun projectRepo => projectRepo.repo)
    ∧ reposC9A.map (fun projectRepo => projectRepo.version)
      = reposC9B.map (fun projectRepo => projectRepo.version)
    ∧ (reposC9A.map (fun projectRepo => projectRepo.status)).tail
      = (reposC9B.map (fun projectRepo => projectRepo.status)).tail
    ∧ envC9A.obsBranch "p" = envC9B.obsBranch "p"
    ∧ handlePkg envC9A "p" false (some "15.4") = HandleOutcome.ok []
    ∧ handlePkg envC9B "p" false (some "15.4")
        = HandleOutcome.ok ["p: 2.0 -> ?"] := by
  refine ⟨by decide, by decide, by decide, rfl, by decide, by decide⟩

/-- C9 amended: leap mode never reads the primary entry's fields directly,
but they can flow into the newest-version computation; still, there is an
input where a package whose primary entry has status `newest` is reported
as outdated for the target distribution, the target entry's version
differing from the newest version with the eligibility gate passing. -/
theorem C9_amended_newest_primary_reported :
    (reposEx3.find? (fun projectRepo =>
        projectRepo.repo == "opensuse_tumbleweed")).map
          (fun projectRepo => projectRepo.status) = some "newest"
    ∧ (mkRepo "opensuse_leap_15_4" "2.0" "outdated").version ≠ newestVersion reposEx3
    ∧ fromLatestBackports collEx3 "SLE-15-SP4" = true
    ∧ handlePkg envEx3 "baz" false (some "15.4")
        = HandleOutcome.ok ["baz: 2.0 -> 2.1"] := by
  decide

end Osutil
